import Mathlib

/-!
Shallow embedding of `src/build/builder.unix.h` (with the shared data
declarations of `src/build/builder.h`): the process-group fork-join
primitive, the build-context stack, the self-recompiling bootstrap
sequence of `main_impl`, and the command-line argument parser.
-/

/-! ## Process model (pid lists, waitpid) -/

/-- Outcome of a terminated child process, as `waitpid` would report it. -/
inductive ProcOutcome where
  | exited (code : Nat)
  | signaled (sig : Nat)
deriving DecidableEq

/-- Raw wait-status word stored by a successful `waitpid` (Linux/glibc
encoding): normal exit with code `c` yields `(c mod 256) * 256`; termination
by signal `s` yields the signal number in the low seven bits. -/
def rawStatus : ProcOutcome → Nat
  | .exited code => (code % 256) * 256
  | .signaled sig => sig % 128

/-- WIFSIGNALED(s): the low seven bits are neither 0 (normal exit) nor
0x7f (stopped). -/
def wifsignaled (s : Nat) : Bool := decide (0 < s % 128) && decide (s % 128 < 127)

/-- WIFEXITED(s): the low seven bits are zero. -/
def wifexited (s : Nat) : Bool := s % 128 == 0

/-- WTERMSIG(s): the low seven bits. -/
def wtermsig (s : Nat) : Nat := s % 128

/-- WEXITSTATUS(s): bits 8..15. -/
def wexitstatus (s : Nat) : Nat := (s / 256) % 256

/-- The value of the `status` variable of `pid_list_wait_sync` after one
successful `waitpid` wrote the raw word `raw` over it and the two `if`
blocks ran: `status |= WTERMSIG(status)` when signaled, then
`status |= WEXITSTATUS(status)` when the (possibly updated) word has the
exited shape.  The previously accumulated value was overwritten by
`waitpid` itself, so it does not appear here. -/
def statusAfterReap (raw : Nat) : Nat :=
  let s1 := if wifsignaled raw then raw ||| wtermsig raw else raw
  if wifexited s1 then s1 ||| wexitstatus s1 else s1

/-- The live (not yet reaped) children of the build process, as the map from
pid to the outcome `waitpid` will report for it; `none` means `waitpid` on
that pid fails with -1 (no such child). -/
abbrev PidWorld := Int → Option ProcOutcome

/-- Reaping a child removes it from the set of live children. -/
def worldErase (w : PidWorld) (p : Int) : PidWorld :=
  fun q => if q = p then none else w q

/-- `pid_list_t`: `size` is the allocated capacity, `current` the number of
stored items.  `items` models the heap array; cells at indices that were
never written hold the indeterminate bytes left by `calloc`/`realloc`,
represented by the garbage function supplied to `pid_list_create`. -/
structure pid_list_t where
  size : Nat
  current : Nat
  items : Nat → Int

/-- `pid_list_create`: a zeroed list.  The `garbage` argument fixes the
indeterminate contents future allocations expose past the written cells. -/
def pid_list_create (garbage : Nat → Int) : pid_list_t := ⟨0, 0, garbage⟩

/-- `pid_list_add`: a pid of -1 is ignored; otherwise the capacity is grown
to `(size + 1) * 2` when full and the pid is stored at index `current`. -/
def pid_list_add (pids : pid_list_t) (pid : Int) : pid_list_t :=
  if pid = -1 then pids
  else
    let grown := if pids.size ≤ pids.current
      then { pids with size := (pids.size + 1) * 2 } else pids
    { grown with
        items := fun j => if j = grown.current then pid else grown.items j,
        current := grown.current + 1 }

/-- The inner `while (-1 != waitpid(pid, &status, 0))` loop of
`pid_list_wait_sync` for one pid: a live child is reaped exactly once
(`waitpid` writes the raw word over `status` and the WIFSIGNALED/WIFEXITED
blocks run), after which the next `waitpid` call fails with -1 and leaves
`status` untouched, ending the loop; a pid that is not a live child makes
`waitpid` fail immediately, leaving `status` unchanged. -/
def waitOne (w : PidWorld) (pid : Int) (status : Nat) : PidWorld × Nat :=
  match w pid with
  | none => (w, status)
  | some out => (worldErase w pid, statusAfterReap (rawStatus out))

/-- `pid_list_wait_sync`: iterates `for (size_t i = 0; i < pids->size; i++)`
— over the CAPACITY `size`, exactly as the C loop does, not over the item
count `current` — running the `waitpid` loop on each stored cell, with the
`status` accumulator starting at 0.  Returns the final set of live children
together with the value the function returns. -/
def pid_list_wait_sync (w : PidWorld) (pids : pid_list_t) : PidWorld × Nat :=
  (List.range pids.size).foldl
    (fun acc i => waitOne acc.1 (pids.items i) acc.2) (w, 0)

/-! ## Build-context stack -/

/-- Messages written to the diagnostic streams by the build-context
operations, as far as the claims observe them.  `errorNoContextName` is the
`error("Build context created without name")` call of `build_context_push`
(the `error` macro, err-severity); `warnEvent` models the `warn` macro,
which no context operation invokes. -/
inductive TraceEvent where
  | errorNoContextName
  | warnEvent (msg : String)
  | entering (name : Option String)
  | exitingTo (fromName toName : Option String)
  | exitingTop (name : Option String)
  | spawned (argv : List String)
deriving DecidableEq

/-- `build_context_t`.  The opaque `BUILDER_CONTEXT_DATA data` field is
never read by the core and is omitted. -/
structure build_context_t where
  name : Option String
  mode : Option String
deriving DecidableEq

/-- The process-wide globals `build_context` and `build_mode` of the
backend, together with the trace of diagnostic messages emitted so far. -/
structure BuilderState where
  build_context : Option build_context_t
  build_mode : Option String
  trace : List TraceEvent
deriving DecidableEq

/-- `build_context_push`: saves the old global context, replaces a NULL
`name` by "<unnamed context>" after logging through the `error` macro (a
present name — empty or not — is kept untouched and nothing is logged),
installs the context, and returns the old one. -/
def build_context_push (context : build_context_t) (st : BuilderState) :
    Option build_context_t × BuilderState :=
  let old := st.build_context
  match context.name with
  | none =>
      (old, { st with
                build_context := some { context with name := some "<unnamed context>" },
                trace := st.trace ++ [TraceEvent.errorNoContextName] })
  | some _ => (old, { st with build_context := some context })

/-- `build_context_do_begin`: returns 0 when the global context is NULL;
when the new context carries a mode it is compared by
`strcmp(build_context->mode, build_mode)` — the result is `none` when the
global `build_mode` is NULL and that call would dereference NULL — and on a
mismatch the old context is restored and 0 returned; otherwise the
"entering" message is printed and 1 returned. -/
def build_context_do_begin (old : Option build_context_t) (st : BuilderState) :
    Option (Bool × BuilderState) :=
  match st.build_context with
  | none => some (false, st)
  | some ctx =>
    match ctx.mode with
    | none => some (true, { st with trace := st.trace ++ [TraceEvent.entering ctx.name] })
    | some m =>
      match st.build_mode with
      | none => none
      | some bm =>
        if m ≠ bm then some (false, { st with build_context := old })
        else some (true, { st with trace := st.trace ++ [TraceEvent.entering ctx.name] })

/-- `build_context_pop`: logs the "exiting" message (naming the resumed
context when there is one; reading `build_context->name`, hence `none` when
the global context is NULL while `context` is not) and restores `context`
as the global context. -/
def build_context_pop (context : Option build_context_t) (st : BuilderState) :
    Option BuilderState :=
  match context with
  | some c =>
    match st.build_context with
    | none => none
    | some cur =>
        some { st with build_context := context,
                       trace := st.trace ++ [TraceEvent.exitingTo cur.name c.name] }
  | none =>
    match st.build_context with
    | some cur =>
        some { st with build_context := none,
                       trace := st.trace ++ [TraceEvent.exitingTop cur.name] }
    | none => some { st with build_context := none }

/-- The `BuildContext(...)` statement macro: push the context, run the
guarded `for` loop — whose condition calls `build_context_do_begin` — at
most once around the body (the body is the `SyncGroup` scope holding the
user's block), and pop in the loop-update clause.  When
`build_context_do_begin` returns 0 the body and the pop never run. -/
def build_context_run (context : build_context_t)
    (body : BuilderState → BuilderState) (st : BuilderState) : Option BuilderState :=
  let pushed := build_context_push context st
  match build_context_do_begin pushed.1 pushed.2 with
  | none => none
  | some (false, st2) => some st2
  | some (true, st2) => build_context_pop pushed.1 (body st2)

/-! ## Bootstrap (`main_impl`) -/

/-- The environment `main_impl` runs against: file modification times
(`none` when `stat` fails), the program path `argv[0]`, the `__FILE__`
source path, which executable names resolve in PATH, the exit code of the
synchronous recompilation, and whether the final `execv` fails (returns). -/
structure BootEnv where
  mtime : String → Option Int
  argv0 : String
  source_file : String
  pathHas : String → Bool
  compileExit : Int
  execvFails : Bool

/-- `is_file_older`: false when `stat` fails on either path, otherwise
whether `source`'s modification time is strictly older than `target`'s. -/
def is_file_older (mtime : String → Option Int) (source target : String) : Bool :=
  match mtime source with
  | none => false
  | some sourceTime =>
    match mtime target with
    | none => false
    | some targetTime => decide (sourceTime < targetTime)

/-- The compiler probe of `main_impl`: `find_executable` on "cc", then
"clang", then "gcc", succeeding when any resolves. -/
def findHostCompiler (env : BootEnv) : Bool :=
  env.pathHas "cc" || env.pathHas "clang" || env.pathHas "gcc"

/-- How the `main` body produced by `main_impl` leaves the process:
terminating with an exit code during bootstrap, replacing the image via a
successful `execv`, or falling through to `builder_parse_arguments` and
`builder_entrypoint` (`afterFailedRelaunch` records whether that fall
through happened after a recompilation whose `execv` returned). -/
inductive BootOutcome where
  | exitedWith (code : Int)
  | relaunched
  | ranUserLogic (afterFailedRelaunch : Bool)
deriving DecidableEq

/-- `main_impl`: when `is_file_older(argv[0], source_file)` holds, probe for
a host compiler (`return 1` when none is found), recompile synchronously
(`return 1` on a nonzero compiler exit), then `execv(argv[0], argv)`; the
code does not check the result of `execv`, so when it fails control falls
out of the `if` block into argument parsing and the user entry point. -/
def main_impl (env : BootEnv) : BootOutcome :=
  if is_file_older env.mtime env.argv0 env.source_file then
    if !(findHostCompiler env) then .exitedWith 1
    else if env.compileExit ≠ 0 then .exitedWith 1
    else if env.execvFails then .ranUserLogic true
    else .relaunched
  else .ranUserLogic false

/-! ## Argument parser -/

/-- `argument_definition_t` of builder.h.  A NULL `longName` and a `'\0'`
`shortName` are modelled as `none`. -/
structure argument_definition_t where
  longName : Option String
  shortName : Option Char
  requiresValue : Bool
  toggleOption : Bool
deriving DecidableEq

/-- `argument_t`: one parsed option, fields copied from the matching
definition, plus the value (`none` for toggles). -/
structure argument_t where
  longName : Option String
  shortName : Option Char
  value : Option String
deriving DecidableEq

/-- `builder_find_def_by_long_name`: first definition whose non-NULL
`longName` equals `name`. -/
def builder_find_def_by_long_name (name : String)
    (defs : List argument_definition_t) : Option argument_definition_t :=
  defs.find? fun d => d.longName == some name

/-- `builder_find_def_by_short_name`: first definition whose non-`'\0'`
`shortName` equals `c`. -/
def builder_find_def_by_short_name (c : Char)
    (defs : List argument_definition_t) : Option argument_definition_t :=
  defs.find? fun d => d.shortName == some c

/-- The failure cases of `builder_parse_arguments` (the C collapses them all
to a NULL return; the distinct stderr messages tell them apart).
`emptyDefs` is the `defs_count <= 0` early NULL return. -/
inductive ParseError where
  | emptyDefs
  | unknownOption
  | missingValue
  | conflictingValueOptions
deriving DecidableEq

/-- The `for (int j = 0; short_opts[j] != '\0'; ++j)` loop of
`builder_parse_arguments` over the characters of one bundled short-option
token.  `next` is the following argv token, when any; the returned Bool
records whether it was consumed as a value (`i++`).  A value-requiring
option with more characters after it takes them verbatim as its attached
value and ends the token (the C `goto next_arg`); a value-requiring option
in last position takes `next` or fails with `missingValue`; when a
value-requiring option was already seen in this token the loop fails with
`conflictingValueOptions`. -/
def parseShortGroup (defs : List argument_definition_t) (chars : List Char)
    (valueOptionFound : Bool) (next : Option String) (acc : List argument_t) :
    Except ParseError (List argument_t × Bool) :=
  match chars with
  | [] => .ok (acc, false)
  | c :: cs =>
    match builder_find_def_by_short_name c defs with
    | none => .error ParseError.unknownOption
    | some d =>
      if d.requiresValue then
        if valueOptionFound then .error ParseError.conflictingValueOptions
        else
          match cs with
          | _ :: _ => .ok (acc ++ [⟨d.longName, d.shortName, some (String.mk cs)⟩], false)
          | [] =>
            match next with
            | none => .error ParseError.missingValue
            | some v => .ok (acc ++ [⟨d.longName, d.shortName, some v⟩], true)
      else
        parseShortGroup defs cs valueOptionFound next
          (acc ++ [⟨d.longName, d.shortName, none⟩])

/-- The C test `arg[0] != '-'` (negated): whether the token starts with a
dash character.  An empty token has `arg[0] == '\0'` and so does not. -/
def firstCharIsDash (s : String) : Bool :=
  match s.data with
  | c :: _ => c == '-'
  | [] => false

/-- The C test `strncmp(arg, "--", 2) == 0`: the first two characters are
both dashes (a token of fewer than two characters differs from "--" within
the compared prefix because of its terminating NUL). -/
def firstTwoCharsAreDashes (s : String) : Bool :=
  match s.data with
  | c1 :: c2 :: _ => c1 == '-' && c2 == '-'
  | _ => false

/-- The `for (i = 1; i < argc; ++i)` scan of `builder_parse_arguments` over
the tokens after `argv[0]`.  Scanning stops at a token equal to "--" (the
`i++; break`, so the token is consumed and excluded from the residual) or
at a token not starting with '-' (plain `break`: the token stays in the
residual).  A token starting with "--" is resolved by long name, consuming
the following token as its value when the definition requires one; any
other '-' token is a short-option group handled by `parseShortGroup`.  The
result pairs the parsed options with the residual tail `argv + i`.
Every loop iteration consumes at least one token, so the token count bounds
the number of iterations; the `fuel` argument carries that bound to make
the recursion structural, and `parseLoop` below instantiates it with the
exact token count, so it is never exhausted. -/
def parseLoopFuel (defs : List argument_definition_t) :
    Nat → List String → List argument_t →
    Except ParseError (List argument_t × List String)
  | _, [], acc => .ok (acc, [])
  | 0, argv, acc => .ok (acc, argv)
  | fuel + 1, arg :: rest, acc =>
    if arg = "--" then .ok (acc, rest)
    else if !(firstCharIsDash arg) then .ok (acc, arg :: rest)
    else if firstTwoCharsAreDashes arg then
      let longName := String.mk (arg.data.drop 2)
      if longName.length = 0 then .ok (acc, rest)
      else
        match builder_find_def_by_long_name longName defs with
        | none => .error ParseError.unknownOption
        | some d =>
          if d.requiresValue then
            match rest with
            | [] => .error ParseError.missingValue
            | v :: rest2 =>
                parseLoopFuel defs fuel rest2 (acc ++ [⟨d.longName, d.shortName, some v⟩])
          else
            parseLoopFuel defs fuel rest (acc ++ [⟨d.longName, d.shortName, none⟩])
    else
      match parseShortGroup defs (arg.data.drop 1) false rest.head? acc with
      | .error e => .error e
      | .ok (acc2, consumedNext) =>
        if consumedNext then parseLoopFuel defs fuel rest.tail acc2
        else parseLoopFuel defs fuel rest acc2

/-- The argument scan with its fuel fixed at the exact token count. -/
def parseLoop (defs : List argument_definition_t) (argv : List String)
    (acc : List argument_t) : Except ParseError (List argument_t × List String) :=
  parseLoopFuel defs argv.length argv acc

/-- `builder_parse_arguments`: fails at once when the definition table is
empty, otherwise scans the tokens after `argv[0]`. -/
def builder_parse_arguments (argv : List String)
    (defs : List argument_definition_t) :
    Except ParseError (List argument_t × List String) :=
  if defs.length = 0 then .error ParseError.emptyDefs
  else parseLoop defs (argv.drop 1) []

/-- Whether a parse outcome is the `conflictingValueOptions` failure. -/
def isConflictExcept {α : Type} : Except ParseError α → Bool
  | .error ParseError.conflictingValueOptions => true
  | _ => false

/-! ## Concrete scenarios used by the individual claims -/

/-- C1: contents of heap cells never written (irrelevant here: both cells of
the list below are written). -/
def c1Garbage : Nat → Int := fun _ => 0

/-- C1: two live children, pid 10 exiting with code 3 and pid 11 with 0. -/
def c1World : PidWorld := fun p =>
  if p = 10 then some (.exited 3) else if p = 11 then some (.exited 0) else none

/-- C1: the group after adding handles 10 and 11 in that order. -/
def c1List : pid_list_t := pid_list_add (pid_list_add (pid_list_create c1Garbage) 10) 11

/-- C2: the uninitialized cell at index 1 of the reallocated array happens
to hold 99, the pid of another live child never added to the group. -/
def c2Garbage : Nat → Int := fun j => if j = 1 then 99 else 0

/-- C2: two live children, only pid 10 of which is added to the group. -/
def c2World : PidWorld := fun p =>
  if p = 10 then some (.exited 0) else if p = 99 then some (.exited 0) else none

/-- C2: the group after adding the single handle 10: capacity grows to 2,
so the wait loop also visits the uninitialized cell at index 1. -/
def c2List : pid_list_t := pid_list_add (pid_list_create c2Garbage) 10

/-- C3: short option 'a' (long "alpha"), requiring a value. -/
def c3DefA : argument_definition_t := ⟨some "alpha", some 'a', true, false⟩

/-- C3: short option 'b' (long "beta"), requiring a value. -/
def c3DefB : argument_definition_t := ⟨some "beta", some 'b', true, false⟩

/-- C4: a stale executable (mtime 1 against source mtime 2), a host
compiler on PATH, a successful recompilation, and an `execv` that fails. -/
def c4Env : BootEnv :=
  { mtime := fun p => if p = "build" then some 1 else if p = "build.c" then some 2 else none,
    argv0 := "build",
    source_file := "build.c",
    pathHas := fun n => n == "cc",
    compileExit := 0,
    execvFails := true }

/-- C5: a sample single-entry definition table (toggle option 'z'). -/
def c5Def : argument_definition_t := ⟨some "zeta", some 'z', false, true⟩

/-- C6: a context gated on mode "debug". -/
def c6Ctx : build_context_t := { name := some "tests", mode := some "debug" }

/-- C6: a state whose active build mode is "release". -/
def c6St : BuilderState := { build_context := none, build_mode := some "release", trace := [] }

/-- C7: an environment where `stat` fails on every path. -/
def c7Env : BootEnv :=
  { mtime := fun _ => none,
    argv0 := "build",
    source_file := "build.c",
    pathHas := fun _ => false,
    compileExit := 0,
    execvFails := false }

/-- C8: an initial state with no active context, no build mode, no trace. -/
def c8St : BuilderState := { build_context := none, build_mode := none, trace := [] }

/-- C8: a context whose name is present but empty. -/
def c8EmptyNameCtx : build_context_t := { name := some "", mode := none }

/-- C8: a context whose name is absent (NULL). -/
def c8NoNameCtx : build_context_t := { name := none, mode := none }

/-- C10: a context carrying a mode. -/
def c10Ctx : build_context_t := { name := some "lib", mode := some "debug" }

/-- C10: that context active while the global build mode was never set. -/
def c10StNone : BuilderState := { build_context := some c10Ctx, build_mode := none, trace := [] }

/-- C10: that context active with the global build mode set. -/
def c10StSome : BuilderState :=
  { build_context := some c10Ctx, build_mode := some "debug", trace := [] }

/-! ## Helper lemmas -/

/-- Inside one bundled token, as long as no value-requiring option has been
seen yet, the short-option loop can never reach the conflicting-value
failure: the branch that would set the flag either consumes the rest of the
token as an attached value or ends the character loop. -/
theorem parseShortGroup_no_conflict (defs : List argument_definition_t) :
    ∀ (chars : List Char) (next : Option String) (acc : List argument_t),
      isConflictExcept (parseShortGroup defs chars false next acc) = false := by
  intro chars
  induction chars with
  | nil => intro next acc; rfl
  | cons c cs ih =>
    intro next acc
    simp only [parseShortGroup]
    cases hfind : builder_find_def_by_short_name c defs with
    | none => rfl
    | some d =>
      cases hrv : d.requiresValue with
      | true =>
        cases cs with
        | nil => cases next <;> simp [hrv, isConflictExcept]
        | cons c2 cs2 => simp [hrv, isConflictExcept]
      | false =>
        simp only [hrv, Bool.false_eq_true, if_false]
        exact ih next _

/-- The whole argument scan can never produce the conflicting-value
failure: every bundled group starts with the flag unset, and
`parseShortGroup_no_conflict` shows it stays unreachable inside a group. -/
theorem parseLoopFuel_no_conflict (defs : List argument_definition_t) :
    ∀ (fuel : Nat) (argv : List String) (acc : List argument_t),
      isConflictExcept (parseLoopFuel defs fuel argv acc) = false := by
  intro fuel
  induction fuel with
  | zero => intro argv acc; cases argv <;> rfl
  | succ fuel ih =>
    intro argv acc
    cases argv with
    | nil => rfl
    | cons arg rest =>
      simp only [parseLoopFuel]
      repeat' split
      all_goals try rfl
      all_goals try exact ih _ _
      all_goals rename_i e heq
      all_goals
        have h2 := parseShortGroup_no_conflict defs (List.drop 1 arg.data) rest.head? acc
      all_goals rw [heq] at h2
      all_goals cases e <;> first | rfl | exact h2

/-- Whatever the scan recognizes, the residual it returns is a verbatim
suffix of the token list it scanned. -/
theorem parseLoopFuel_residual_suffix (defs : List argument_definition_t) :
    ∀ (fuel : Nat) (argv : List String) (acc opts : List argument_t) (r : List String),
      parseLoopFuel defs fuel argv acc = .ok (opts, r) → r <:+ argv := by
  intro fuel
  induction fuel with
  | zero =>
    intro argv acc opts r h
    cases argv with
    | nil => cases h; exact List.nil_suffix
    | cons a as => cases h; exact List.suffix_rfl
  | succ fuel ih =>
    intro argv acc opts r h
    cases argv with
    | nil => cases h; exact List.nil_suffix
    | cons arg rest =>
      simp only [parseLoopFuel] at h
      repeat' split at h
      all_goals try exact Except.noConfusion h
      all_goals try (cases h; first
        | exact List.suffix_rfl
        | exact List.suffix_cons _ _)
      all_goals refine (ih _ _ _ _ h).trans ?_
      all_goals first
        | exact List.suffix_cons _ _
        | exact (List.suffix_cons _ _).trans (List.suffix_cons _ _)
        | exact (List.tail_suffix _).trans (List.suffix_cons _ _)

/-! ## Claim theorems -/

/-- C1: the claim says `pid_list_wait_sync` returns the bitwise-OR of the
individual exit/signal codes of all added processes, so a group with one
child exiting 3 and one exiting 0 would aggregate to 3 (nonzero).  The code
instead lets each successful `waitpid` overwrite the accumulator: with pid
10 (exit 3) added before pid 11 (exit 0), the reap of pid 11 erases the
failure already recorded and the function returns 0, contradicting the
function's own documented return value "a bitwise-OR combination of all
process exit statuses". -/
theorem pid_list_wait_sync_drops_earlier_failure :
    c1World 10 = some (.exited 3) ∧ c1World 11 = some (.exited 0) ∧
    c1List.current = 2 ∧ c1List.items 0 = 10 ∧ c1List.items 1 = 11 ∧
    (pid_list_wait_sync c1World c1List).2 = 0 :=
  ⟨rfl, rfl, rfl, rfl, rfl, rfl⟩

/-- C2: the claim says the join waits on exactly the handles added to the
group, no others.  The loop runs over the CAPACITY `pids->size` rather than
the item count `pids->current`: after one `pid_list_add` the capacity is 2,
so the loop also passes the uninitialized cell at index 1 to `waitpid`.
When that indeterminate cell happens to hold the pid of another live child
(99 here, never added — the single added handle is 10), that child is
reaped too, contradicting the struct's own documentation of `current` as
"the current number of items in the list". -/
theorem pid_list_wait_sync_reaps_unadded_pid :
    c2List.current = 1 ∧ c2List.items 0 = 10 ∧ c2List.size = 2 ∧
    c2World 99 = some (.exited 0) ∧
    (pid_list_wait_sync c2World c2List).1 99 = none :=
  ⟨rfl, rfl, rfl, rfl, rfl⟩

/-- C3 counterexample: with both short options 'a' and 'b' requiring
values, the token "-ab" does NOT fail with ConflictingValueOptions as the
claim states: parsing succeeds, reading "b" as the attached value of 'a'. -/
theorem bundled_value_options_parse_succeeds :
    builder_parse_arguments ["prog", "-ab"] [c3DefA, c3DefB]
      = .ok ([⟨some "alpha", some 'a', some "b"⟩], []) := rfl

/-- C3 (amended): a token bundling two value-requiring short options is
consumed by the first of them, which takes the remainder of the token as
its attached value, and parsing succeeds with that reading; the
ConflictingValueOptions failure is unreachable for every definition table
and argv. -/
theorem conflicting_value_options_unreachable :
    (∀ (defs : List argument_definition_t) (argv : List String),
        isConflictExcept (builder_parse_arguments argv defs) = false) ∧
    builder_parse_arguments ["prog", "-ab"] [c3DefA, c3DefB]
      = .ok ([⟨some "alpha", some 'a', some "b"⟩], []) := by
  refine ⟨?_, rfl⟩
  intro defs argv
  unfold builder_parse_arguments
  split
  · rfl
  · exact parseLoopFuel_no_conflict defs _ _ _

/-- C4: the claim says a failed relaunch (execv returning) terminates the
program with exit code 1 and never reaches argument parsing and the stale
user logic.  The code never checks the result of `execv`: in an environment
where the executable is stale, a compiler is found and recompilation
succeeds but `execv` fails, control falls out of the `if` block into
`builder_parse_arguments` and `builder_entrypoint` — the stale logic runs
and no `return 1` happens, contradicting the comment "Replace our process
with the re-compiled build script" treating execv as not returning. -/
theorem main_impl_continues_after_execv_failure :
    is_file_older c4Env.mtime c4Env.argv0 c4Env.source_file = true ∧
    findHostCompiler c4Env = true ∧
    c4Env.compileExit = 0 ∧
    c4Env.execvFails = true ∧
    main_impl c4Env = .ranUserLogic true ∧
    main_impl c4Env ≠ .exitedWith 1 := by
  refine ⟨rfl, rfl, rfl, rfl, rfl, ?_⟩
  decide

/-- C5 counterexample: the claim quantifies over EVERY definition table,
including the empty one, for which the scenario argv ["prog","--","-x"]
does not yield residual ["-x"]: `builder_parse_arguments` fails up front on
an empty table. -/
theorem parse_empty_defs_scenario_fails :
    builder_parse_arguments ["prog", "--", "-x"] [] = .error ParseError.emptyDefs := rfl

/-- C5 (amended): for every NON-EMPTY definition table, option scanning
stops at the first token equal to "--" (which is consumed and excluded from
the residual) or at the first token not starting with '-' (which is not
consumed and heads the residual); the residual is always a verbatim suffix
of the scanned tokens; and argv ["prog","--","-x"] yields zero parsed
options and residual ["-x"]. -/
theorem parse_stops_at_separator_or_nonoption :
    (∀ (defs : List argument_definition_t) (acc : List argument_t) (rest : List String),
        parseLoop defs ("--" :: rest) acc = .ok (acc, rest)) ∧
    (∀ (defs : List argument_definition_t) (acc : List argument_t) (tok : String)
        (rest : List String), firstCharIsDash tok = false →
        parseLoop defs (tok :: rest) acc = .ok (acc, tok :: rest)) ∧
    (∀ (defs : List argument_definition_t) (argv : List String)
        (acc opts : List argument_t) (r : List String),
        parseLoop defs argv acc = .ok (opts, r) → r <:+ argv) ∧
    (∀ defs : List argument_definition_t, defs ≠ [] →
        builder_parse_arguments ["prog", "--", "-x"] defs = .ok ([], ["-x"])) := by
  refine ⟨fun defs acc rest => rfl, ?_, ?_, ?_⟩
  · intro defs acc tok rest h
    have hne : tok ≠ "--" := by
      intro he
      rw [he] at h
      exact Bool.noConfusion h
    simp only [parseLoop, List.length_cons, parseLoopFuel, h, Bool.not_false, if_true]
    rw [if_neg hne]
  · intro defs argv acc opts r h
    exact parseLoopFuel_residual_suffix defs argv.length argv acc opts r h
  · intro defs hne
    unfold builder_parse_arguments
    rw [if_neg (by simpa using hne)]
    rfl

/-- C5 witness: the amended theorem applied at a concrete table and
concrete tokens. -/
theorem parse_stops_witness :
    parseLoop [c5Def] ("--" :: ["-x"]) [] = .ok ([], ["-x"]) ∧
    parseLoop [c5Def] ["lib.c", "-z"] [] = .ok ([], ["lib.c", "-z"]) ∧
    (["tail"] <:+ ["--", "tail"]) ∧
    builder_parse_arguments ["prog", "--", "-x"] [c5Def] = .ok ([], ["-x"]) :=
  ⟨parse_stops_at_separator_or_nonoption.1 [c5Def] [] ["-x"],
   parse_stops_at_separator_or_nonoption.2.1 [c5Def] [] "lib.c" ["-z"] rfl,
   parse_stops_at_separator_or_nonoption.2.2.1 [c5Def] ["--", "tail"] [] [] ["tail"] rfl,
   parse_stops_at_separator_or_nonoption.2.2.2 [c5Def] (by simp)⟩

/-- C6: a context whose mode is set and differs from the set process-wide
build mode is skipped: the `BuildContext` scope produces a state whose
active context is the one from before the push (the skipped context was
popped by `build_context_do_begin` restoring `old`), whose trace gained no
"entering" message and no spawned command (at most the push's missing-name
error), and whose result does not depend on the body at all — the body is
never executed. -/
theorem skipped_context_runs_no_body (st : BuilderState) (context : build_context_t)
    (m bm : String) (body : BuilderState → BuilderState)
    (hmode : context.mode = some m) (hbm : st.build_mode = some bm) (hne : m ≠ bm) :
    ∃ st2, build_context_run context body st = some st2 ∧
      st2.build_context = st.build_context ∧
      st2.build_mode = st.build_mode ∧
      (∀ e, e ∈ st2.trace → e ∈ st.trace ∨ e = TraceEvent.errorNoContextName) ∧
      (∀ body2, build_context_run context body2 st = build_context_run context body st) := by
  have hrun : ∀ b : BuilderState → BuilderState,
      build_context_run context b st
        = some { (build_context_push context st).2 with build_context := st.build_context } := by
    intro b
    cases hname : context.name with
    | none =>
      simp [build_context_run, build_context_push, build_context_do_begin,
        hname, hmode, hbm, hne]
    | some n =>
      simp [build_context_run, build_context_push, build_context_do_begin,
        hname, hmode, hbm, hne]
  refine ⟨_, hrun body, ?_, ?_, ?_, fun body2 => (hrun body2).trans (hrun body).symm⟩
  · rfl
  · cases hname : context.name <;> simp [build_context_push, hname]
  · intro e he
    cases hname : context.name with
    | none =>
      simp only [build_context_push, hname] at he
      rcases List.mem_append.mp he with h | h
      · exact Or.inl h
      · exact Or.inr (List.mem_singleton.mp h)
    | some n =>
      simp only [build_context_push, hname] at he
      exact Or.inl he

/-- C6 witness: the theorem applied to a context gated on "debug" while the
active build mode is "release", with the identity body. -/
theorem skipped_context_witness :
    ∃ st2, build_context_run c6Ctx id c6St = some st2 ∧
      st2.build_context = c6St.build_context ∧
      st2.build_mode = c6St.build_mode ∧
      (∀ e, e ∈ st2.trace → e ∈ c6St.trace ∨ e = TraceEvent.errorNoContextName) ∧
      (∀ body2, build_context_run c6Ctx body2 c6St = build_context_run c6Ctx id c6St) :=
  skipped_context_runs_no_body c6St c6Ctx "debug" "release" id rfl rfl (by decide)

/-- C7: when `stat` fails on the running executable or on the declared
source file, `is_file_older` reports "not stale" and `main_impl` proceeds
directly to argument parsing and the user entry point, with no
recompilation, no relaunch and no bootstrap exit. -/
theorem stat_failure_not_stale_runs_direct (env : BootEnv)
    (h : env.mtime env.argv0 = none ∨ env.mtime env.source_file = none) :
    is_file_older env.mtime env.argv0 env.source_file = false ∧
    main_impl env = .ranUserLogic false := by
  have hstale : is_file_older env.mtime env.argv0 env.source_file = false := by
    unfold is_file_older
    rcases h with h | h
    · rw [h]
    · cases henv : env.mtime env.argv0 with
      | none => rfl
      | some t => rw [h]
  refine ⟨hstale, ?_⟩
  unfold main_impl
  rw [hstale]
  rfl

/-- C7 witness: the theorem applied to an environment where every `stat`
fails. -/
theorem stat_failure_witness :
    (c7Env.mtime c7Env.argv0 = none ∨ c7Env.mtime c7Env.source_file = none) ∧
    is_file_older c7Env.mtime c7Env.argv0 c7Env.source_file = false ∧
    main_impl c7Env = .ranUserLogic false :=
  ⟨Or.inl rfl, stat_failure_not_stale_runs_direct c7Env (Or.inl rfl)⟩

/-- C8 counterexample: a context pushed with a present but EMPTY name is
stored unchanged — it is not defaulted to "<unnamed context>" and nothing
is logged — contradicting the claim that an absent or empty name is
defaulted with a warning. -/
theorem push_empty_name_not_defaulted :
    (build_context_push c8EmptyNameCtx c8St).2.build_context = some c8EmptyNameCtx ∧
    (build_context_push c8EmptyNameCtx c8St).2.trace = [] :=
  ⟨rfl, rfl⟩

/-- C8 (amended): `build_context_push` validates only that the name is
non-NULL: an absent name is defaulted to "<unnamed context>" and a message
is logged through the `error` macro (err-severity, not a warning); a
present name — the empty string included — is stored unchanged and nothing
is logged. -/
theorem push_defaults_only_null_name (st : BuilderState) (context : build_context_t) :
    (context.name = none →
        (build_context_push context st).2.build_context
            = some { context with name := some "<unnamed context>" } ∧
        (build_context_push context st).2.trace
            = st.trace ++ [TraceEvent.errorNoContextName]) ∧
    (∀ s, context.name = some s →
        (build_context_push context st).2.build_context = some context ∧
        (build_context_push context st).2.trace = st.trace) := by
  constructor
  · intro h
    simp [build_context_push, h]
  · intro s h
    simp [build_context_push, h]

/-- C8 witness: the amended theorem applied to a context with an absent
name and to one with the empty-string name. -/
theorem push_defaults_witness :
    ((build_context_push c8NoNameCtx c8St).2.build_context
        = some { c8NoNameCtx with name := some "<unnamed context>" } ∧
      (build_context_push c8NoNameCtx c8St).2.trace
        = c8St.trace ++ [TraceEvent.errorNoContextName]) ∧
    ((build_context_push c8EmptyNameCtx c8St).2.build_context = some c8EmptyNameCtx ∧
      (build_context_push c8EmptyNameCtx c8St).2.trace = c8St.trace) :=
  ⟨(push_defaults_only_null_name c8St c8NoNameCtx).1 rfl,
   (push_defaults_only_null_name c8St c8EmptyNameCtx).2 "" rfl⟩

/-- C9: for every argv, `builder_parse_arguments` with an empty definition
table fails (the C returns NULL at `defs_count <= 0`) instead of returning
a result whose residual is the whole tail. -/
theorem parse_rejects_empty_defs (argv : List String) :
    builder_parse_arguments argv [] = .error ParseError.emptyDefs := rfl

/-- C10: for a state whose active context carries a mode,
`build_context_do_begin` passes the global `build_mode` to `strcmp`
unchecked: when the build mode was never set the comparison dereferences
NULL (result `none`), and under the unstated precondition that the build
mode is set, the NULL branch is unreachable — the call always produces a
result. -/
theorem do_begin_null_mode_precondition (st : BuilderState)
    (old : Option build_context_t) (ctx : build_context_t) (m : String)
    (hcur : st.build_context = some ctx) (hmode : ctx.mode = some m) :
    (st.build_mode = none → build_context_do_begin old st = none) ∧
    (st.build_mode ≠ none → (build_context_do_begin old st).isSome = true) := by
  constructor
  · intro h
    simp [build_context_do_begin, hcur, hmode, h]
  · intro h
    cases hbm : st.build_mode with
    | none => exact absurd hbm h
    | some bm =>
      by_cases hmb : m = bm <;>
        simp [build_context_do_begin, hcur, hmode, hbm, hmb]

/-- C10 witness: the theorem applied with the build mode never set (NULL
strcmp argument) and with it set (a result is produced). -/
theorem do_begin_null_mode_witness :
    build_context_do_begin none c10StNone = none ∧
    (build_context_do_begin none c10StSome).isSome = true :=
  ⟨(do_begin_null_mode_precondition c10StNone none c10Ctx "debug" rfl rfl).1 rfl,
   (do_begin_null_mode_precondition c10StSome none c10Ctx "debug" rfl rfl).2 (by decide)⟩
